import Mathlib

/-
  Verification development for the ucware-cli repository.

  The definitions below are a shallow embedding of the SIP-over-WebSocket
  core in src/sipsocket/mod.rs (plus the slot selection in src/main.rs).
  Stateful Rust code (the atomic CSeq counter, the DashMap transaction
  registry) is embedded as explicit state passing; the AtomicU32 counter is
  modelled as a Nat reduced modulo 2^32 exactly where the machine type
  wraps.  Channels are modelled by the sequence of values they carry, and
  the channel identity held in the registry is modelled as a Nat tag.
-/

namespace UcwareCli

/-! ## Basic SIP vocabulary (embedding of the rsip types used by the code) -/

/-- SIP methods (rsip Method); only the constructors exercised by the code
are listed, with a catch-all for the remaining methods. -/
inductive Method
  | register
  | options
  | invite
  | cancel
  | ack
  | other (name : String)
deriving DecidableEq

/-- Display rendering of a method (rsip Method to_string). -/
def Method.toStr : Method → String
  | .register => "REGISTER"
  | .options => "OPTIONS"
  | .invite => "INVITE"
  | .cancel => "CANCEL"
  | .ack => "ACK"
  | .other name => name

/-- Transports (rsip Transport); the code uses Ws and Wss. -/
inductive Transport
  | ws
  | wss
  | udp
  | tcp
deriving DecidableEq

/-- URI scheme (rsip Scheme). -/
inductive SipScheme
  | sip
  | sips
deriving DecidableEq

/-- Generic URI/header parameter (rsip Param); only the variants used by the
code are modelled. -/
inductive Param
  | transport (t : Transport)
  | branch (value : String)
  | expires (value : String)
  | other (name value : String)
deriving DecidableEq

/-- Host with optional port (rsip HostWithPort). -/
structure HostWithPort where
  host : String
  port : Option Nat
deriving DecidableEq

/-- SIP URI (rsip Uri); the auth part is collapsed to the user name, as the
code never sets a password in a URI. -/
structure Uri where
  scheme : Option SipScheme
  user : Option String
  hostPort : HostWithPort
  params : List Param
deriving DecidableEq

/-- Uri::from(HostWithPort): a URI carrying just a host and port. -/
def Uri.ofHostPort (h : HostWithPort) : Uri :=
  { scheme := none, user := none, hostPort := h, params := [] }

/-- Typed Via header (rsip headers::typed::Via); the fixed SIP version field
is omitted. -/
structure ViaHeader where
  transport : Transport
  uri : Uri
  params : List Param
deriving DecidableEq

/-- Branch parameter of a Via header (rsip typed Via branch()): the first
branch parameter, if any. -/
def ViaHeader.branch (v : ViaHeader) : Option String :=
  v.params.findSome? fun p =>
    match p with
    | .branch b => some b
    | _ => none

/-- Typed name-addr value used by the From, To and Contact headers. -/
structure NameAddr where
  displayName : Option String
  uri : Uri
  params : List Param
deriving DecidableEq

/-- Typed CSeq header (rsip headers::typed::CSeq). -/
structure CSeqHeader where
  seq : Nat
  method : Method
deriving DecidableEq

/-- Authentication scheme (rsip headers::auth::Scheme). -/
inductive AuthScheme
  | digest
  | basic
deriving DecidableEq

/-- Digest algorithm (rsip headers::auth::Algorithm); only MD5 is exercised
by the code, the rest are listed for fidelity of the Option field. -/
inductive Algorithm
  | md5
  | md5Sess
  | sha256
  | sha512
deriving DecidableEq

/-- Typed WWW-Authenticate challenge (rsip typed WwwAuthenticate); the
fields the registration procedure reads. -/
structure Challenge where
  realm : String
  nonce : String
  algorithm : Option Algorithm
  opaqueData : Option String
  qop : Option String
deriving DecidableEq

/-- Typed Authorization header (rsip headers::typed::Authorization). -/
structure AuthorizationHeader where
  scheme : AuthScheme
  username : String
  realm : String
  nonce : String
  uri : String
  response : String
  algorithm : Option Algorithm
  opaqueData : Option String
  qop : Option String
deriving DecidableEq

/-- SIP header (rsip Header); the variants the code constructs or matches
on, with a catch-all for every other header of a message. -/
inductive Header
  | via (v : ViaHeader)
  | frm (f : NameAddr)
  | to (t : NameAddr)
  | cseq (c : CSeqHeader)
  | callId (value : String)
  | userAgent (value : String)
  | contact (c : NameAddr)
  | authorization (a : AuthorizationHeader)
  | wwwAuthenticate (c : Challenge)
  | other (name value : String)
deriving DecidableEq

/-- SIP request (rsip Request). -/
structure Request where
  method : Method
  uri : Uri
  headers : List Header
  body : String
deriving DecidableEq

/-- SIP response (rsip Response); the status code is a plain Nat. -/
structure Response where
  statusCode : Nat
  headers : List Header
  body : String
deriving DecidableEq

/-! ## Header accessors (rsip message::HeadersExt: first header of a kind) -/

/-- First Via header of a header list (rsip via_header). -/
def Headers.viaHeader (hs : List Header) : Option ViaHeader :=
  hs.findSome? fun h =>
    match h with
    | .via v => some v
    | _ => none

/-- First Call-ID header value of a header list (rsip call_id_header). -/
def Headers.callIdHeader (hs : List Header) : Option String :=
  hs.findSome? fun h =>
    match h with
    | .callId v => some v
    | _ => none

/-- First CSeq header of a header list (rsip cseq_header). -/
def Headers.cseqHeader (hs : List Header) : Option CSeqHeader :=
  hs.findSome? fun h =>
    match h with
    | .cseq c => some c
    | _ => none

/-- First WWW-Authenticate header of a header list (rsip
www_authenticate_header). -/
def Headers.wwwAuthenticateHeader (hs : List Header) : Option Challenge :=
  hs.findSome? fun h =>
    match h with
    | .wwwAuthenticate c => some c
    | _ => none

/-- First Authorization header of a header list. -/
def Headers.authorizationHeader (hs : List Header) : Option AuthorizationHeader :=
  hs.findSome? fun h =>
    match h with
    | .authorization a => some a
    | _ => none

/-- First Contact header of a header list. -/
def Headers.contactHeader (hs : List Header) : Option NameAddr :=
  hs.findSome? fun h =>
    match h with
    | .contact c => some c
    | _ => none

/-! ## Transaction key (sipsocket/mod.rs lines 23-77) -/

/-- Correlation identity of a transaction (struct TransactionKey). -/
structure TransactionKey where
  method : String
  callId : Option String
  branch : Option String
deriving DecidableEq

/-- TransactionKey::from_request: method from the request line, Call-ID from
the Call-ID header if present, branch from the branch parameter of the
topmost Via header if present. -/
def TransactionKey.from_request (r : Request) : TransactionKey :=
  { method := r.method.toStr,
    callId := Headers.callIdHeader r.headers,
    branch := (Headers.viaHeader r.headers).bind ViaHeader.branch }

/-- TransactionKey::from_response: method from the CSeq header, defaulting
to the empty string when absent; Call-ID and branch derived exactly as in
the request case from the response headers. -/
def TransactionKey.from_response (s : Response) : TransactionKey :=
  { method := ((Headers.cseqHeader s.headers).map (fun c => c.method.toStr)).getD "",
    callId := Headers.callIdHeader s.headers,
    branch := (Headers.viaHeader s.headers).bind ViaHeader.branch }

/-! ## Status code classification (rsip StatusCode::kind) -/

/-- Status code classes (rsip StatusCodeKind). -/
inductive StatusCodeKind
  | provisional
  | successful
  | redirection
  | requestFailure
  | serverFailure
  | globalFailure
  | other (code : Nat)
deriving DecidableEq

/-- Classification of a numeric status code by its hundreds range. -/
def statusKind (code : Nat) : StatusCodeKind :=
  if 100 ≤ code ∧ code < 200 then .provisional
  else if 200 ≤ code ∧ code < 300 then .successful
  else if 300 ≤ code ∧ code < 400 then .redirection
  else if 400 ≤ code ∧ code < 500 then .requestFailure
  else if 500 ≤ code ∧ code < 600 then .serverFailure
  else if 600 ≤ code ∧ code < 700 then .globalFailure
  else .other code

/-! ## ClientTransaction::receive (sipsocket/mod.rs lines 140-154)

The response channel of a client transaction is embedded as the list of
responses it delivers before closing. -/

/-- ClientTransaction::receive: discard provisional responses, return the
first non-provisional one, fail when the channel closes first. -/
def ClientTransaction.receive : List Response → Except String Response
  | [] => .error "Transaction closed without response"
  | r :: rest =>
    if statusKind r.statusCode = StatusCodeKind.provisional then
      ClientTransaction.receive rest
    else
      .ok r

/-! ## Transaction registry (the DashMap in Connection, keyed by
TransactionKey, holding the response sender of each pending client
transaction, modelled by a Nat channel tag)

The DashMap is embedded as an association list with at most one entry per
key; insert replaces an existing entry and remove deletes it. -/

/-- The transaction registry state. -/
abbrev Registry := List (TransactionKey × Nat)

/-- Lookup of a key (DashMap get). -/
def Registry.get? : Registry → TransactionKey → Option Nat
  | [], _ => none
  | e :: σ, k => if e.1 = k then some e.2 else Registry.get? σ k

/-- Removal of a key (DashMap remove); a no-op when the key is absent. -/
def Registry.remove (σ : Registry) (k : TransactionKey) : Registry :=
  σ.filter fun e => decide (e.1 ≠ k)

/-- Insertion of a key (DashMap insert); silently replaces an existing
entry for the same key. -/
def Registry.insert (σ : Registry) (k : TransactionKey) (ch : Nat) : Registry :=
  (k, ch) :: Registry.remove σ k

/-- Response routing performed by the multiplexer loop (Connection::run,
response arm): compute the key, look it up, deliver to the matching
channel; on a miss the response is logged and discarded.  The routing
returns the registry unchanged together with the delivery target, none
standing for the unmatched (logged, discarded) case. -/
def Registry.route (σ : Registry) (s : Response) : Registry × Option Nat :=
  match σ.get? (TransactionKey.from_response s) with
  | some ch => (σ, some ch)
  | none => (σ, none)

/-- Drop of a ClientTransaction (impl Drop for ClientTransaction): upgrade
the weak registry reference, and when that succeeds remove the entry under
the key derived from the owned request.  The dead-weak case (the
Connection was already destroyed) is the none input and is a no-op. -/
def ClientTransaction.drop (transactions : Option Registry) (request : Request) :
    Option Registry :=
  match transactions with
  | none => none
  | some σ => some (Registry.remove σ (TransactionKey.from_request request))

/-! ## Connection::send (sipsocket/mod.rs lines 316-334)

The body of send is embedded as the ordered list of its two effects: the
registry insertion and the handoff of the request to the multiplexer. -/

/-- One observable effect of Connection::send. -/
inductive SendAction
  | register (key : TransactionKey) (channel : Nat)
  | transmit (request : Request)
deriving DecidableEq

/-- The effects of Connection::send in program order: first the registry
insertion under the key of the outgoing request, then the handoff of the
request to the multiplexer. -/
def Connection.sendSteps (r : Request) (ch : Nat) : List SendAction :=
  [SendAction.register (TransactionKey.from_request r) ch, SendAction.transmit r]

/-- Effect of a single send action on the registry. -/
def SendAction.apply (σ : Registry) : SendAction → Registry
  | .register k ch => Registry.insert σ k ch
  | .transmit _ => σ

/-! ## ServerTransaction::respond (sipsocket/mod.rs lines 85-105) -/

/-- The header filter of ServerTransaction::respond: keeps exactly the Via,
From, To, CSeq and Call-ID headers of the original request. -/
def isCorrelationHeader : Header → Bool
  | .via _ => true
  | .frm _ => true
  | .to _ => true
  | .cseq _ => true
  | .callId _ => true
  | _ => false

/-- Recognizer for Via headers. -/
def isViaHeader : Header → Bool
  | .via _ => true
  | _ => false

/-- Recognizer for From headers. -/
def isFromHeader : Header → Bool
  | .frm _ => true
  | _ => false

/-- Recognizer for To headers. -/
def isToHeader : Header → Bool
  | .to _ => true
  | _ => false

/-- Recognizer for CSeq headers. -/
def isCSeqHeader : Header → Bool
  | .cseq _ => true
  | _ => false

/-- Recognizer for Call-ID headers. -/
def isCallIdHeader : Header → Bool
  | .callId _ => true
  | _ => false

/-- Response builder state (struct ResponseBuilder, without the borrowed
transaction). -/
structure ResponseBuilderState where
  statusCode : Nat
  headers : List Header
deriving DecidableEq

/-- ResponseBuilder::header: push one more header. -/
def ResponseBuilderState.header (b : ResponseBuilderState) (h : Header) :
    ResponseBuilderState :=
  { b with headers := b.headers ++ [h] }

/-- ServerTransaction::respond: seed the builder with the correlation
headers copied from the original request, then append a User-Agent header.
The version string comes from the build environment and is passed in. -/
def ServerTransaction.respond (req : Request) (statusCode : Nat) (version : String) :
    ResponseBuilderState :=
  ResponseBuilderState.header
    { statusCode := statusCode, headers := req.headers.filter isCorrelationHeader }
    (Header.userAgent ("ucware-cli/" ++ version))

/-- ResponseBuilder::send: finalize the response with the builder state. -/
def ResponseBuilderState.send (b : ResponseBuilderState) (body : String) : Response :=
  { statusCode := b.statusCode, headers := b.headers, body := body }

/-! ## Connection, Dialog and the request builder
(sipsocket/mod.rs lines 166-238 and 426-511) -/

/-- The immutable fields of a Connection that the builders read. -/
structure ConnectionState where
  domain : String
  user : Uri
  sendBy : HostWithPort
deriving DecidableEq

/-- 2^32, the modulus of the AtomicU32 sequence counter. -/
def u32Mod : Nat := 4294967296

/-- 2^16, the range of the random u16 initial sequence value. -/
def u16Mod : Nat := 65536

/-- Dialog state: the Call-ID and the current value of the atomic sequence
counter (a u32, kept below 2^32 by reducing at each step). -/
structure DialogState where
  callId : String
  seq : Nat
deriving DecidableEq

/-- Connection::dialog: a fresh dialog with a random Call-ID and a sequence
counter initialized from a random u16 widened to u32.  The random inputs
are passed in explicitly. -/
def Connection.dialog (callIdRand : String) (seqRand : Nat) : DialogState :=
  { callId := callIdRand, seq := seqRand % u16Mod }

/-- Request builder state (struct RequestBuilder, without the borrowed
dialog). -/
structure RequestBuilderState where
  method : Method
  headers : List Header
deriving DecidableEq

/-- RequestBuilder::header: push one more header. -/
def RequestBuilderState.header (b : RequestBuilderState) (h : Header) :
    RequestBuilderState :=
  { b with headers := b.headers ++ [h] }

/-- Dialog::request: seed a builder with Via (synthetic send-by host, no
branch parameter), To and From (both the local identity), CSeq (the value
fetched from the atomic counter), Call-ID and User-Agent; the counter is
advanced by fetch_add(1), which wraps modulo 2^32.  Returns the builder
together with the dialog state after the fetch_add. -/
def Dialog.request (conn : ConnectionState) (version : String) (d : DialogState)
    (method : Method) : RequestBuilderState × DialogState :=
  let b : RequestBuilderState := { method := method, headers := [] }
  let b := b.header (Header.via
    { transport := Transport.wss, uri := Uri.ofHostPort conn.sendBy, params := [] })
  let b := b.header (Header.to
    { displayName := none, uri := conn.user, params := [] })
  let b := b.header (Header.frm
    { displayName := none, uri := conn.user, params := [] })
  let b := b.header (Header.cseq { seq := d.seq % u32Mod, method := method })
  let b := b.header (Header.callId d.callId)
  let b := b.header (Header.userAgent ("ucware-cli/" ++ version))
  (b, { d with seq := (d.seq + 1) % u32Mod })

/-- Dialog::request iterated n times, keeping only the dialog state; used
to speak about the state of a dialog after a number of requests. -/
def Dialog.requestN (conn : ConnectionState) (version : String) (method : Method) :
    Nat → DialogState → DialogState
  | 0, d => d
  | n + 1, d => Dialog.requestN conn version method n (Dialog.request conn version d method).2

/-- RequestBuilder::send: finalize the request; the request URI names the
domain of the connection URL. -/
def RequestBuilderState.send (conn : ConnectionState) (b : RequestBuilderState)
    (body : String) : Request :=
  { method := b.method,
    uri := { scheme := some SipScheme.sip, user := none,
             hostPort := { host := conn.domain, port := none }, params := [] },
    headers := b.headers,
    body := body }

/-! ## Registration procedure (sipsocket/mod.rs lines 347-423) -/

/-- Outcome of inspecting the final response of registration round 1
(Connection::register, lines 359-370). -/
inductive Round1Outcome
  | success
  | failStatus (status : Nat)
  | failNoWwwAuthenticate
  | proceed (challenge : Challenge)
deriving DecidableEq

/-- Round-1 decision of Connection::register: a success-class response
completes registration; any other status than 401 Unauthorized fails with
that status; a 401 without a WWW-Authenticate header fails with the
dedicated condition; a 401 with a challenge proceeds to round 2. -/
def Connection.registerRound1 (resp : Response) : Round1Outcome :=
  if statusKind resp.statusCode = StatusCodeKind.successful then
    Round1Outcome.success
  else if resp.statusCode ≠ 401 then
    Round1Outcome.failStatus resp.statusCode
  else
    match Headers.wwwAuthenticateHeader resp.headers with
    | none => Round1Outcome.failNoWwwAuthenticate
    | some ch => Round1Outcome.proceed ch

/-- Modelled from the spec: the digest response value of the DigestGenerator
of the external rsip crate (not part of this repository), for the MD5
algorithm and without qop, abstracted over the hash function.
HA1 is hash(username:realm:password), HA2 is hash(method:uri), and the
response is hash(HA1:nonce:HA2). -/
def DigestGenerator.compute (hash : String → String)
    (username password nonce uri realm method : String) : String :=
  hash (hash (username ++ ":" ++ realm ++ ":" ++ password)
    ++ ":" ++ nonce
    ++ ":" ++ hash (method ++ ":" ++ uri))

/-- Round 2 of Connection::register (lines 372-416): compute the digest
over the challenge with an empty default request URI, build a second
REGISTER on the same dialog carrying a Contact header (random user part,
the synthetic send-by host, ws transport, expires parameter 6000) and an
Authorization header echoing realm, nonce, algorithm and opaque value from
the challenge, with qop left unpopulated.  The md5 parameter abstracts the
MD5 hash. -/
def Connection.registerRound2 (conn : ConnectionState) (version : String)
    (username password contact : String) (md5 : String → String)
    (d : DialogState) (chal : Challenge) : RequestBuilderState × DialogState :=
  let response := DigestGenerator.compute md5 username password chal.nonce "" chal.realm "REGISTER"
  let authorization : AuthorizationHeader :=
    { scheme := AuthScheme.digest,
      username := username,
      realm := chal.realm,
      nonce := chal.nonce,
      uri := "",
      response := response,
      algorithm := chal.algorithm,
      opaqueData := chal.opaqueData,
      qop := none }
  let r := Dialog.request conn version d Method.register
  let b := r.1.header (Header.contact
    { displayName := none,
      uri := { scheme := some SipScheme.sip,
               user := some contact,
               hostPort := conn.sendBy,
               params := [Param.transport Transport.ws] },
      params := [Param.expires "6000"] })
  let b := b.header (Header.authorization authorization)
  (b, r.2)

/-! ## Slot selection (src/main.rs lines 38-60, src/ucware/user/slot.rs) -/

/-- A device slot as returned by slot discovery (struct Slot); the
free-form extra map is omitted. -/
structure Slot where
  id : Nat
  name : String
  userId : Nat
  deviceType : String
  deviceId : Nat
  sipHost : String
  sipPort : Nat
  sipUsername : String
  sipPassword : String
deriving DecidableEq

/-- The slot selection in main: the first slot whose name equals
UCC-Client, or the error from the context call when none matches. -/
def Main.selectSlot (slots : List Slot) : Except String Slot :=
  match slots.find? (fun s => s.name == "UCC-Client") with
  | some s => Except.ok s
  | none => Except.error "No matching slot found"

/-- The slot selection as the spec words it (for comparison with
Main.selectSlot, which is the one taken from the source): the first slot
whose device type equals webrtc. -/
def Main.selectSlotSpec (slots : List Slot) : Except String Slot :=
  match slots.find? (fun s => s.deviceType == "webrtc") with
  | some s => Except.ok s
  | none => Except.error "No matching slot found"

/-! ## Registry lemmas -/

/-- Looking up a key right after removing it fails. -/
theorem Registry.get?_remove_self (σ : Registry) (k : TransactionKey) :
    Registry.get? (Registry.remove σ k) k = none := by
  induction σ with
  | nil => rfl
  | cons e σ ih =>
    by_cases h : e.1 = k
    · simpa [Registry.remove, Registry.get?, List.filter_cons, h] using ih
    · simpa [Registry.remove, Registry.get?, List.filter_cons, h] using ih

/-- Removing a key leaves every other key untouched. -/
theorem Registry.get?_remove_ne (σ : Registry) (k k' : TransactionKey) (h : k' ≠ k) :
    Registry.get? (Registry.remove σ k) k' = Registry.get? σ k' := by
  induction σ with
  | nil => rfl
  | cons e σ ih =>
    by_cases he : e.1 = k
    · have hne : ¬(k = k') := fun hk => h hk.symm
      simpa [Registry.remove, Registry.get?, List.filter_cons, he, hne] using ih
    · by_cases he' : e.1 = k'
      · simp [Registry.remove, Registry.get?, List.filter_cons, he, he', h]
      · simpa [Registry.remove, Registry.get?, List.filter_cons, he, he'] using ih

/-- Looking up a key right after inserting it yields the inserted channel. -/
theorem Registry.get?_insert_self (σ : Registry) (k : TransactionKey) (ch : Nat) :
    Registry.get? (Registry.insert σ k ch) k = some ch := by
  simp [Registry.insert, Registry.get?]

/-- Inserting a key leaves every other key untouched. -/
theorem Registry.get?_insert_ne (σ : Registry) (k k' : TransactionKey) (ch : Nat)
    (h : k' ≠ k) :
    Registry.get? (Registry.insert σ k ch) k' = Registry.get? σ k' := by
  have hkk : k ≠ k' := fun hk => h hk.symm
  simp only [Registry.insert, Registry.get?, hkk, if_false]
  exact Registry.get?_remove_ne σ k k' h

/-! ## Claim theorems -/

/-- Claim C1: for every request R and response S such that the method named
in the CSeq header of S equals the method of R, the Call-ID of S equals the
Call-ID of R, and the branch parameter of the topmost Via of S equals that
of R, TransactionKey::from_request R equals TransactionKey::from_response S. -/
theorem transaction_key_request_response_agree (R : Request) (S : Response)
    (hm : (Headers.cseqHeader S.headers).map CSeqHeader.method = some R.method)
    (hc : Headers.callIdHeader S.headers = Headers.callIdHeader R.headers)
    (hb : (Headers.viaHeader S.headers).bind ViaHeader.branch
        = (Headers.viaHeader R.headers).bind ViaHeader.branch) :
    TransactionKey.from_request R = TransactionKey.from_response S := by
  have hm' : (Headers.cseqHeader S.headers).map (fun c => c.method.toStr)
      = some R.method.toStr := by
    have : (fun (c : CSeqHeader) => c.method.toStr)
        = Method.toStr ∘ CSeqHeader.method := rfl
    rw [this, ← Option.map_map, hm]
    rfl
  simp [TransactionKey.from_request, TransactionKey.from_response, hm', hc, hb]

/-- Witness for claim C1 at a concrete request/response pair. -/
theorem transaction_key_request_response_agree_witness :
    TransactionKey.from_request
      { method := Method.options,
        uri := { scheme := none, user := none,
                 hostPort := { host := "h", port := none }, params := [] },
        headers := [Header.callId "cid1",
          Header.via { transport := Transport.wss,
                       uri := Uri.ofHostPort { host := "h", port := none },
                       params := [Param.branch "br1"] }],
        body := "" }
    = TransactionKey.from_response
      { statusCode := 200,
        headers := [Header.cseq { seq := 7, method := Method.options },
          Header.callId "cid1",
          Header.via { transport := Transport.wss,
                       uri := Uri.ofHostPort { host := "h", port := none },
                       params := [Param.branch "br1"] }],
        body := "" } := by
  exact transaction_key_request_response_agree _ _ (by rfl) (by rfl) (by rfl)

/-- Claim C2: ClientTransaction::receive discards every provisional (1xx)
response on its channel and returns the first non-provisional one; when the
channel closes before any non-provisional response, it fails with the
transaction-closed-without-response error. -/
theorem receive_skips_provisional :
    (∀ (pre post : List Response) (r : Response),
        (∀ p ∈ pre, statusKind p.statusCode = StatusCodeKind.provisional) →
        statusKind r.statusCode ≠ StatusCodeKind.provisional →
        ClientTransaction.receive (pre ++ r :: post) = Except.ok r)
    ∧ (∀ rs : List Response,
        (∀ p ∈ rs, statusKind p.statusCode = StatusCodeKind.provisional) →
        ClientTransaction.receive rs
          = Except.error "Transaction closed without response") := by
  constructor
  · intro pre post r hpre hr
    induction pre with
    | nil => simp [ClientTransaction.receive, hr]
    | cons p pre ih =>
      have hp := hpre p (List.mem_cons_self p pre)
      simp only [List.cons_append, ClientTransaction.receive, hp, if_true]
      exact ih fun q hq => hpre q (List.mem_cons_of_mem p hq)
  · intro rs h
    induction rs with
    | nil => rfl
    | cons p rs ih =>
      have hp := h p (List.mem_cons_self p rs)
      simp only [ClientTransaction.receive, hp, if_true]
      exact ih fun q hq => h q (List.mem_cons_of_mem p hq)

/-- Witness for claim C2: fed 180 Ringing, 183 Session Progress, 200 OK the
receive call returns the 200; fed only provisional responses it fails. -/
theorem receive_skips_provisional_witness :
    ClientTransaction.receive
      [{ statusCode := 180, headers := [], body := "" },
       { statusCode := 183, headers := [], body := "" },
       { statusCode := 200, headers := [], body := "" }]
      = Except.ok { statusCode := 200, headers := [], body := "" }
    ∧ ClientTransaction.receive
      [{ statusCode := 180, headers := [], body := "" },
       { statusCode := 183, headers := [], body := "" }]
      = Except.error "Transaction closed without response" := by
  constructor
  · exact receive_skips_provisional.1
      [{ statusCode := 180, headers := [], body := "" },
       { statusCode := 183, headers := [], body := "" }]
      [] { statusCode := 200, headers := [], body := "" }
      (by decide) (by decide)
  · exact receive_skips_provisional.2
      [{ statusCode := 180, headers := [], body := "" },
       { statusCode := 183, headers := [], body := "" }]
      (by decide)

/-- Claim C3: in Connection::send the registry insertion happens strictly
before the request is handed to the multiplexer, so at every point of the
send sequence at which the transmit step has already occurred the registry
holds the key, and a response for that key routes to the transaction
channel rather than being lost. -/
theorem send_registers_before_transmit
    (σ : Registry) (r : Request) (ch : Nat) (s : Response)
    (hkey : TransactionKey.from_response s = TransactionKey.from_request r) :
    ∀ i : Nat, SendAction.transmit r ∈ (Connection.sendSteps r ch).take i →
      (Registry.route
        (((Connection.sendSteps r ch).take i).foldl SendAction.apply σ) s).2
        = some ch := by
  intro i hi
  match i with
  | 0 => simp at hi
  | 1 => simp [Connection.sendSteps] at hi
  | n + 2 =>
    have htake : (Connection.sendSteps r ch).take (n + 2) = Connection.sendSteps r ch :=
      List.take_of_length_le (by simp [Connection.sendSteps])
    rw [htake]
    simp [Connection.sendSteps, SendAction.apply, Registry.route, hkey,
      Registry.get?_insert_self]

/-- Witness for claim C3 at a concrete registry, request and response. -/
theorem send_registers_before_transmit_witness :
    (Registry.route
      (((Connection.sendSteps
          { method := Method.options,
            uri := { scheme := none, user := none,
                     hostPort := { host := "h", port := none }, params := [] },
            headers := [Header.callId "cid2"],
            body := "" } 3).take 2).foldl SendAction.apply [])
      { statusCode := 200,
        headers := [Header.cseq { seq := 1, method := Method.options },
          Header.callId "cid2"],
        body := "" }).2 = some 3 := by
  exact send_registers_before_transmit [] _ 3 _ (by rfl) 2 (by decide)

/-- Claim C4: dropping a ClientTransaction removes the registry entry under
the key of its request, after which a response for that key is unmatched
(routed to no one, registry unchanged); when the weak registry reference is
dead the drop is a no-op rather than an error. -/
theorem drop_deregisters :
    (∀ (σ : Registry) (r : Request) (s : Response) (σ' : Registry),
        TransactionKey.from_response s = TransactionKey.from_request r →
        ClientTransaction.drop (some σ) r = some σ' →
        Registry.route σ' s = (σ', none))
    ∧ (∀ r : Request, ClientTransaction.drop none r = none) := by
  constructor
  · intro σ r s σ' hkey hdrop
    have hσ' : σ' = Registry.remove σ (TransactionKey.from_request r) := by
      simpa [ClientTransaction.drop] using hdrop.symm
    subst hσ'
    simp [Registry.route, hkey, Registry.get?_remove_self]
  · intro r
    rfl

/-- Witness for claim C4 at a concrete registry, request and response. -/
theorem drop_deregisters_witness :
    Registry.route
      (Registry.remove
        [({ method := "OPTIONS", callId := some "cid3", branch := none }, 9)]
        (TransactionKey.from_request
          { method := Method.options,
            uri := { scheme := none, user := none,
                     hostPort := { host := "h", port := none }, params := [] },
            headers := [Header.callId "cid3"],
            body := "" }))
      { statusCode := 200,
        headers := [Header.cseq { seq := 1, method := Method.options },
          Header.callId "cid3"],
        body := "" }
    = (Registry.remove
        [({ method := "OPTIONS", callId := some "cid3", branch := none }, 9)]
        (TransactionKey.from_request
          { method := Method.options,
            uri := { scheme := none, user := none,
                     hostPort := { host := "h", port := none }, params := [] },
            headers := [Header.callId "cid3"],
            body := "" }), none)
    ∧ ClientTransaction.drop none
      { method := Method.options,
        uri := { scheme := none, user := none,
                 hostPort := { host := "h", port := none }, params := [] },
        headers := [Header.callId "cid3"],
        body := "" } = none := by
  constructor
  · exact drop_deregisters.1 _ _ _ _ (by rfl) rfl
  · exact drop_deregisters.2 _

/-- Claim C10: routing a response through the multiplexer never removes or
modifies the registry entry it matched: the registry after routing equals
the registry before, a delivered response can be followed by another
delivery for the same key, and an insertion only replaces the entry of its
own key, leaving every other key untouched. -/
theorem route_preserves_registry (σ : Registry) (s : Response) :
    (Registry.route σ s).1 = σ
    ∧ (∀ ch : Nat, (Registry.route σ s).2 = some ch →
        (Registry.route (Registry.route σ s).1 s).2 = some ch)
    ∧ (∀ (k k' : TransactionKey) (ch : Nat), k' ≠ k →
        Registry.get? (Registry.insert σ k ch) k' = Registry.get? σ k') := by
  refine ⟨?_, ?_, ?_⟩
  · unfold Registry.route
    cases Registry.get? σ (TransactionKey.from_response s) <;> rfl
  · intro ch h
    have h1 : (Registry.route σ s).1 = σ := by
      unfold Registry.route
      cases Registry.get? σ (TransactionKey.from_response s) <;> rfl
    rw [h1]
    exact h
  · intro k k' ch h
    exact Registry.get?_insert_ne σ k k' ch h

/-- Witness for claim C10 at a concrete registry and response. -/
theorem route_preserves_registry_witness :
    (Registry.route
      [({ method := "OPTIONS", callId := some "cid4", branch := none }, 5)]
      { statusCode := 200,
        headers := [Header.cseq { seq := 1, method := Method.options },
          Header.callId "cid4"],
        body := "" }).1
      = [({ method := "OPTIONS", callId := some "cid4", branch := none }, 5)]
    ∧ (Registry.route
        ((Registry.route
          [({ method := "OPTIONS", callId := some "cid4", branch := none }, 5)]
          { statusCode := 200,
            headers := [Header.cseq { seq := 1, method := Method.options },
              Header.callId "cid4"],
            body := "" }).1)
        { statusCode := 200,
          headers := [Header.cseq { seq := 1, method := Method.options },
            Header.callId "cid4"],
          body := "" }).2 = some 5
    ∧ Registry.get?
        (Registry.insert
          [({ method := "OPTIONS", callId := some "cid4", branch := none }, 5)]
          { method := "INVITE", callId := some "cid5", branch := none } 6)
        { method := "OPTIONS", callId := some "cid4", branch := none }
      = Registry.get?
        [({ method := "OPTIONS", callId := some "cid4", branch := none }, 5)]
        { method := "OPTIONS", callId := some "cid4", branch := none } := by
  refine ⟨?_, ?_, ?_⟩
  · exact (route_preserves_registry _ _).1
  · exact (route_preserves_registry
      [({ method := "OPTIONS", callId := some "cid4", branch := none }, 5)]
      { statusCode := 200,
        headers := [Header.cseq { seq := 1, method := Method.options },
          Header.callId "cid4"],
        body := "" }).2.1 5 (by decide)
  · exact (route_preserves_registry
      [({ method := "OPTIONS", callId := some "cid4", branch := none }, 5)]
      { statusCode := 200,
        headers := [Header.cseq { seq := 1, method := Method.options },
          Header.callId "cid4"],
        body := "" }).2.2
      { method := "INVITE", callId := some "cid5", branch := none }
      { method := "OPTIONS", callId := some "cid4", branch := none } 6 (by decide)

/-- Occurrence counting through the correlation filter decomposes into the
counts through the five per-kind filters, since the five kinds are
disjoint. -/
theorem count_filter_correlation (a : Header) (l : List Header) :
    (l.filter isCorrelationHeader).count a
      = (l.filter isViaHeader).count a + (l.filter isFromHeader).count a
        + (l.filter isToHeader).count a + (l.filter isCSeqHeader).count a
        + (l.filter isCallIdHeader).count a := by
  induction l with
  | nil => simp
  | cons b l ih =>
    cases b <;>
      simp [List.filter_cons, isCorrelationHeader, isViaHeader, isFromHeader,
        isToHeader, isCSeqHeader, isCallIdHeader, List.count_cons, ih] <;>
      omega

/-- Claim C5: on a request carrying exactly one Via, From, To, CSeq and
Call-ID header each (plus arbitrary unrelated headers),
ServerTransaction::respond produces a builder whose header list is, up to
order, exactly those five headers copied unchanged plus one User-Agent
header; no other header of the request is carried over. -/
theorem respond_copies_exactly_correlation_headers
    (req : Request) (statusCode : Nat) (version : String)
    (V : ViaHeader) (F T : NameAddr) (C : CSeqHeader) (I : String)
    (hV : req.headers.filter isViaHeader = [Header.via V])
    (hF : req.headers.filter isFromHeader = [Header.frm F])
    (hT : req.headers.filter isToHeader = [Header.to T])
    (hC : req.headers.filter isCSeqHeader = [Header.cseq C])
    (hI : req.headers.filter isCallIdHeader = [Header.callId I]) :
    (ServerTransaction.respond req statusCode version).headers.Perm
      [Header.via V, Header.frm F, Header.to T, Header.cseq C, Header.callId I,
       Header.userAgent ("ucware-cli/" ++ version)] := by
  rw [List.perm_iff_count]
  intro a
  simp only [ServerTransaction.respond, ResponseBuilderState.header]
  rw [List.count_append, count_filter_correlation, hV, hF, hT, hC, hI]
  simp [List.count_cons]
  omega

/-- Witness for claim C5 at a concrete request with one unrelated header. -/
theorem respond_copies_exactly_correlation_headers_witness :
    (ServerTransaction.respond
      { method := Method.options,
        uri := { scheme := none, user := none,
                 hostPort := { host := "h", port := none }, params := [] },
        headers :=
          [Header.via { transport := Transport.wss,
                        uri := Uri.ofHostPort { host := "h", port := none },
                        params := [Param.branch "br5"] },
           Header.other "Max-Forwards" "70",
           Header.frm { displayName := none,
                        uri := { scheme := none, user := some "alice",
                                 hostPort := { host := "h", port := none },
                                 params := [] },
                        params := [] },
           Header.to { displayName := none,
                       uri := { scheme := none, user := some "alice",
                                hostPort := { host := "h", port := none },
                                params := [] },
                       params := [] },
           Header.cseq { seq := 2, method := Method.options },
           Header.callId "cid6"],
        body := "" } 202 "1.0").headers.Perm
      [Header.via { transport := Transport.wss,
                    uri := Uri.ofHostPort { host := "h", port := none },
                    params := [Param.branch "br5"] },
       Header.frm { displayName := none,
                    uri := { scheme := none, user := some "alice",
                             hostPort := { host := "h", port := none },
                             params := [] },
                    params := [] },
       Header.to { displayName := none,
                   uri := { scheme := none, user := some "alice",
                            hostPort := { host := "h", port := none },
                            params := [] },
                   params := [] },
       Header.cseq { seq := 2, method := Method.options },
       Header.callId "cid6",
       Header.userAgent ("ucware-cli/" ++ "1.0")] := by
  exact respond_copies_exactly_correlation_headers _ 202 "1.0" _ _ _ _ _
    (by rfl) (by rfl) (by rfl) (by rfl) (by rfl)

/-- Claim C6: on the final response of registration round 1, a success-class
status completes registration without a second round; a non-success status
other than 401 Unauthorized fails carrying that status code; a 401 without
a WWW-Authenticate header fails with the dedicated no-WWW-Authenticate
condition; and reaching round 2 happens exactly for a 401 carrying a
WWW-Authenticate challenge. -/
theorem register_round1_classification (resp : Response) :
    (statusKind resp.statusCode = StatusCodeKind.successful →
      Connection.registerRound1 resp = Round1Outcome.success)
    ∧ (statusKind resp.statusCode ≠ StatusCodeKind.successful →
        resp.statusCode ≠ 401 →
        Connection.registerRound1 resp = Round1Outcome.failStatus resp.statusCode)
    ∧ (resp.statusCode = 401 →
        Headers.wwwAuthenticateHeader resp.headers = none →
        Connection.registerRound1 resp = Round1Outcome.failNoWwwAuthenticate)
    ∧ (∀ ch : Challenge,
        Connection.registerRound1 resp = Round1Outcome.proceed ch →
        resp.statusCode = 401
          ∧ Headers.wwwAuthenticateHeader resp.headers = some ch) := by
  refine ⟨?_, ?_, ?_, ?_⟩
  · intro h
    simp [Connection.registerRound1, h]
  · intro h h401
    simp [Connection.registerRound1, h, h401]
  · intro h401 hna
    have hk : statusKind 401 = StatusCodeKind.requestFailure := by decide
    simp [Connection.registerRound1, h401, hna, hk]
  · intro ch h
    by_cases hs : statusKind resp.statusCode = StatusCodeKind.successful
    · simp [Connection.registerRound1, hs] at h
    · by_cases h401 : resp.statusCode = 401
      · refine ⟨h401, ?_⟩
        have hk : statusKind 401 = StatusCodeKind.requestFailure := by decide
        cases hna : Headers.wwwAuthenticateHeader resp.headers with
        | none =>
          simp [Connection.registerRound1, hs, h401, hna, hk] at h
        | some c =>
          simp [Connection.registerRound1, hs, h401, hna, hk] at h
          rw [h]
      · simp [Connection.registerRound1, hs, h401] at h

/-- Witness for claim C6 at concrete responses exercising every branch. -/
theorem register_round1_classification_witness :
    Connection.registerRound1 { statusCode := 200, headers := [], body := "" }
      = Round1Outcome.success
    ∧ Connection.registerRound1 { statusCode := 503, headers := [], body := "" }
      = Round1Outcome.failStatus 503
    ∧ Connection.registerRound1 { statusCode := 401, headers := [], body := "" }
      = Round1Outcome.failNoWwwAuthenticate
    ∧ ({ statusCode := 401,
         headers := [Header.wwwAuthenticate
           { realm := "r", nonce := "n", algorithm := none,
             opaqueData := none, qop := none }],
         body := "" } : Response).statusCode = 401
    ∧ Headers.wwwAuthenticateHeader
        ({ statusCode := 401,
           headers := [Header.wwwAuthenticate
             { realm := "r", nonce := "n", algorithm := none,
               opaqueData := none, qop := none }],
           body := "" } : Response).headers
      = some { realm := "r", nonce := "n", algorithm := none,
               opaqueData := none, qop := none } := by
  refine ⟨?_, ?_, ?_, ?_, ?_⟩
  · exact (register_round1_classification _).1 (by decide)
  · exact (register_round1_classification _).2.1 (by decide) (by decide)
  · exact (register_round1_classification _).2.2.1 (by decide) (by rfl)
  · exact ((register_round1_classification
      { statusCode := 401,
        headers := [Header.wwwAuthenticate
          { realm := "r", nonce := "n", algorithm := none,
            opaqueData := none, qop := none }],
        body := "" }).2.2.2
      { realm := "r", nonce := "n", algorithm := none,
        opaqueData := none, qop := none } (by rfl)).1
  · exact ((register_round1_classification
      { statusCode := 401,
        headers := [Header.wwwAuthenticate
          { realm := "r", nonce := "n", algorithm := none,
            opaqueData := none, qop := none }],
        body := "" }).2.2.2
      { realm := "r", nonce := "n", algorithm := none,
        opaqueData := none, qop := none } (by rfl)).2

/-- Folding of the colon-separated digest input around abstract hash
values. -/
theorem digest_input_fold (x y : String) :
    x ++ ":" ++ "abc" ++ ":" ++ y = x ++ ":abc:" ++ y := by
  rw [String.append_assoc x ":" "abc", show (":" ++ "abc" : String) = ":abc" from rfl,
    String.append_assoc x ":abc" ":", show (":abc" ++ ":" : String) = ":abc:" from rfl]

/-- Claim C7: for a round-1 401 challenge with realm example.com, nonce
abc, algorithm MD5 and credentials u/p, the round-2 REGISTER is built on
the same dialog (same Call-ID, CSeq advanced by one from round 1) and
carries an Authorization header whose response field is
md5 (md5 of u:example.com:p, then :abc:, then md5 of REGISTER:), with
realm, nonce and the opaque value echoed from the challenge, qop never
populated even when the challenge advertised one, and a Contact header
whose parameter list is exactly expires 6000. -/
theorem register_round2_digest
    (conn : ConnectionState) (version contact callIdRand : String)
    (seqRand : Nat) (md5 : String → String) (o q : Option String) :
    let chal : Challenge :=
      { realm := "example.com", nonce := "abc", algorithm := some Algorithm.md5,
        opaqueData := o, qop := q }
    let d0 := Connection.dialog callIdRand seqRand
    let r1 := Dialog.request conn version d0 Method.register
    let r2 := Connection.registerRound2 conn version "u" "p" contact md5 r1.2 chal
    ((Headers.cseqHeader r1.1.headers).map CSeqHeader.seq = some (seqRand % u16Mod))
    ∧ (Headers.callIdHeader r1.1.headers = some callIdRand)
    ∧ (Headers.callIdHeader r2.1.headers = some callIdRand)
    ∧ ((Headers.cseqHeader r2.1.headers).map CSeqHeader.seq
        = some (seqRand % u16Mod + 1))
    ∧ ((Headers.cseqHeader r2.1.headers).map CSeqHeader.method = some Method.register)
    ∧ (∃ a : AuthorizationHeader,
        Headers.authorizationHeader r2.1.headers = some a
        ∧ a.response = md5 (md5 "u:example.com:p" ++ ":abc:" ++ md5 "REGISTER:")
        ∧ a.realm = "example.com" ∧ a.nonce = "abc"
        ∧ a.opaqueData = o ∧ a.qop = none)
    ∧ (∃ c : NameAddr,
        Headers.contactHeader r2.1.headers = some c
        ∧ c.params = [Param.expires "6000"]) := by
  intro chal d0 r1 r2
  have hseq : seqRand % u16Mod < u16Mod := Nat.mod_lt seqRand (by norm_num [u16Mod])
  have h1lt : seqRand % u16Mod < u32Mod := by
    have : u16Mod < u32Mod := by norm_num [u16Mod, u32Mod]
    omega
  have h2lt : seqRand % u16Mod + 1 < u32Mod := by
    have : u16Mod < u32Mod := by norm_num [u16Mod, u32Mod]
    omega
  refine ⟨?_, ?_, ?_, ?_, ?_, ?_, ?_⟩
  · simp [Dialog.request, RequestBuilderState.header, Headers.cseqHeader,
      Connection.dialog, Nat.mod_eq_of_lt h1lt, d0, r1]
  · simp [Dialog.request, RequestBuilderState.header, Headers.callIdHeader,
      Connection.dialog, d0, r1]
  · simp [Connection.registerRound2, Dialog.request, RequestBuilderState.header,
      Headers.callIdHeader, Connection.dialog, d0, r1, r2]
  · simp [Connection.registerRound2, Dialog.request, RequestBuilderState.header,
      Headers.cseqHeader, Connection.dialog, d0, r1, r2,
      Nat.mod_eq_of_lt h1lt, Nat.mod_eq_of_lt h2lt]
  · simp [Connection.registerRound2, Dialog.request, RequestBuilderState.header,
      Headers.cseqHeader, Connection.dialog, d0, r1, r2]
  · refine ⟨{ scheme := AuthScheme.digest
              username := "u"
              realm := chal.realm
              nonce := chal.nonce
              uri := ""
              response := DigestGenerator.compute md5 "u" "p" chal.nonce "" chal.realm "REGISTER"
              algorithm := chal.algorithm
              opaqueData := chal.opaqueData
              qop := none },
      ?_, ?_, rfl, rfl, rfl, rfl⟩
    · simp [Connection.registerRound2, DigestGenerator.compute, Dialog.request,
        RequestBuilderState.header, Headers.authorizationHeader, d0, r1, r2]
    · show DigestGenerator.compute md5 "u" "p" chal.nonce "" chal.realm "REGISTER"
        = md5 (md5 "u:example.com:p" ++ ":abc:" ++ md5 "REGISTER:")
      unfold DigestGenerator.compute
      rw [show ("u" ++ ":" ++ chal.realm ++ ":" ++ "p" : String) = "u:example.com:p" from rfl,
        show ("REGISTER" ++ ":" ++ "" : String) = "REGISTER:" from rfl]
      rw [show (chal.nonce : String) = "abc" from rfl]
      rw [digest_input_fold]
  · refine ⟨{ displayName := none
              uri := { scheme := some SipScheme.sip, user := some contact,
                       hostPort := conn.sendBy,
                       params := [Param.transport Transport.ws] }
              params := [Param.expires "6000"] }, ?_, rfl⟩
    simp [Connection.registerRound2, Dialog.request, RequestBuilderState.header,
      Headers.contactHeader, d0, r1, r2]

/-- Sequence counter after n requests: the fetch_add chain adds n to the
initial counter value, modulo 2^32. -/
theorem Dialog.requestN_seq (conn : ConnectionState) (version : String) (m : Method) :
    ∀ (n : Nat) (d : DialogState), d.seq < u32Mod →
      (Dialog.requestN conn version m n d).seq = (d.seq + n) % u32Mod := by
  intro n
  induction n with
  | zero =>
    intro d h
    simp [Dialog.requestN, Nat.mod_eq_of_lt h]
  | succ n ih =>
    intro d h
    have hstep : (Dialog.request conn version d m).2.seq = (d.seq + 1) % u32Mod := rfl
    have h' : (Dialog.request conn version d m).2.seq < u32Mod := by
      rw [hstep]
      exact Nat.mod_lt _ (by norm_num [u32Mod])
    have hrec : Dialog.requestN conn version m (n + 1) d
        = Dialog.requestN conn version m n (Dialog.request conn version d m).2 := rfl
    rw [hrec, ih _ h', hstep, Nat.mod_add_mod]
    congr 1
    omega

/-- CSeq value issued by one Dialog::request call: the current counter
value reduced as a u32. -/
theorem dialog_cseq_at (conn : ConnectionState) (version : String)
    (d : DialogState) (m : Method) :
    (Headers.cseqHeader (Dialog.request conn version d m).1.headers).map CSeqHeader.seq
      = some (d.seq % u32Mod) := by
  simp [Dialog.request, RequestBuilderState.header, Headers.cseqHeader]

/-- Dialog state after one Dialog::request call: the counter advanced by
the wrapping fetch_add. -/
theorem dialog_state_at (conn : ConnectionState) (version : String)
    (d : DialogState) (m : Method) :
    (Dialog.request conn version d m).2.seq = (d.seq + 1) % u32Mod := rfl

/-- A concrete connection state used to exercise the dialog counter. -/
def connectionExample : ConnectionState :=
  { domain := "example.com",
    user := { scheme := some SipScheme.sip, user := some "alice",
              hostPort := { host := "example.com", port := none }, params := [] },
    sendBy := { host := "sendby.invalid", port := none } }

/-- The state of a fresh dialog after 2^32 - 1 requests: the counter has
reached the largest u32 value. -/
def dialogWrapped : DialogState :=
  Dialog.requestN connectionExample "1.0" Method.options 4294967295
    (Connection.dialog "cid" 0)

/-- The wrapped dialog state indeed carries the counter value 2^32 - 1. -/
theorem dialogWrapped_seq : dialogWrapped.seq = 4294967295 := by
  have hd0 : (Connection.dialog "cid" 0).seq = 0 := rfl
  have h := Dialog.requestN_seq connectionExample "1.0" Method.options 4294967295
    (Connection.dialog "cid" 0) (by rw [hd0]; norm_num [u32Mod])
  rw [hd0] at h
  show (Dialog.requestN connectionExample "1.0" Method.options 4294967295
    (Connection.dialog "cid" 0)).seq = 4294967295
  rw [h]
  norm_num [u32Mod]

/-- Counterexample to claim C8 as stated: the CSeq counter is a 32-bit
value advanced by a wrapping fetch_add, so a dialog that has reached the
counter value 2^32 - 1 (reachable from a fresh dialog after 2^32 - 1
requests, as dialogWrapped is) issues 4294967295 and then 0, which is not
4294967295 + 1: the issued values are neither strictly increasing nor
never reused in general. -/
theorem dialog_cseq_wraps :
    ((Headers.cseqHeader (Dialog.request connectionExample "1.0" dialogWrapped
        Method.options).1.headers).map CSeqHeader.seq = some 4294967295)
    ∧ ((Headers.cseqHeader (Dialog.request connectionExample "1.0"
          (Dialog.request connectionExample "1.0" dialogWrapped Method.options).2
          Method.options).1.headers).map CSeqHeader.seq = some 0)
    ∧ some (0 : Nat) ≠ some (4294967295 + 1) := by
  have hW : dialogWrapped.seq = 4294967295 := dialogWrapped_seq
  have h1 : (4294967295 : Nat) % u32Mod = 4294967295 := by norm_num [u32Mod]
  have hr2 : (Dialog.request connectionExample "1.0" dialogWrapped
      Method.options).2.seq = 0 := by
    rw [dialog_state_at, hW]
    norm_num [u32Mod]
  refine ⟨?_, ?_, by decide⟩
  · rw [dialog_cseq_at, hW, h1]
  · rw [dialog_cseq_at, hr2]
    norm_num [u32Mod]

/-- Claim C8 as amended: as long as the 32-bit counter does not wrap, three
successive Dialog::request calls on one dialog issue the CSeq values N,
N + 1, N + 2 in order, independent of the methods. -/
theorem dialog_cseq_strictly_increasing
    (conn : ConnectionState) (version : String) (d0 : DialogState)
    (m1 m2 m3 : Method) (h : d0.seq + 2 < u32Mod) :
    let r1 := Dialog.request conn version d0 m1
    let r2 := Dialog.request conn version r1.2 m2
    let r3 := Dialog.request conn version r2.2 m3
    ((Headers.cseqHeader r1.1.headers).map CSeqHeader.seq = some d0.seq)
    ∧ ((Headers.cseqHeader r2.1.headers).map CSeqHeader.seq = some (d0.seq + 1))
    ∧ ((Headers.cseqHeader r3.1.headers).map CSeqHeader.seq = some (d0.seq + 2)) := by
  intro r1 r2 r3
  have h0 : d0.seq % u32Mod = d0.seq := Nat.mod_eq_of_lt (by omega)
  have h1 : (d0.seq + 1) % u32Mod = d0.seq + 1 := Nat.mod_eq_of_lt (by omega)
  have h2 : (d0.seq + 2) % u32Mod = d0.seq + 2 := Nat.mod_eq_of_lt (by omega)
  have hs1 : r1.2.seq = d0.seq + 1 := by
    have : r1.2.seq = (d0.seq + 1) % u32Mod := rfl
    rw [this, h1]
  have hs2 : r2.2.seq = d0.seq + 2 := by
    have : r2.2.seq = (r1.2.seq + 1) % u32Mod := rfl
    rw [this, hs1, h2]
  refine ⟨?_, ?_, ?_⟩
  · simp [r1, Dialog.request, RequestBuilderState.header, Headers.cseqHeader, h0]
  · simp [r2, Dialog.request, RequestBuilderState.header, Headers.cseqHeader, hs1, h1]
  · simp [r3, Dialog.request, RequestBuilderState.header, Headers.cseqHeader, hs2, h2]

/-- Witness for the amended claim C8 at a concrete dialog state. -/
theorem dialog_cseq_strictly_increasing_witness :
    ((Headers.cseqHeader (Dialog.request
        { domain := "example.com",
          user := { scheme := some SipScheme.sip, user := some "alice",
                    hostPort := { host := "example.com", port := none }, params := [] },
          sendBy := { host := "sendby.invalid", port := none } } "1.0"
        { callId := "cid", seq := 41 } Method.options).1.headers).map CSeqHeader.seq
      = some 41)
    ∧ ((Headers.cseqHeader (Dialog.request
        { domain := "example.com",
          user := { scheme := some SipScheme.sip, user := some "alice",
                    hostPort := { host := "example.com", port := none }, params := [] },
          sendBy := { host := "sendby.invalid", port := none } } "1.0"
        (Dialog.request
          { domain := "example.com",
            user := { scheme := some SipScheme.sip, user := some "alice",
                      hostPort := { host := "example.com", port := none }, params := [] },
            sendBy := { host := "sendby.invalid", port := none } } "1.0"
          { callId := "cid", seq := 41 } Method.options).2
        Method.invite).1.headers).map CSeqHeader.seq
      = some 42) := by
  constructor
  · exact (dialog_cseq_strictly_increasing
      { domain := "example.com",
        user := { scheme := some SipScheme.sip, user := some "alice",
                  hostPort := { host := "example.com", port := none }, params := [] },
        sendBy := { host := "sendby.invalid", port := none } } "1.0"
      { callId := "cid", seq := 41 } Method.options Method.invite Method.cancel
      (by norm_num [u32Mod])).1
  · exact (dialog_cseq_strictly_increasing
      { domain := "example.com",
        user := { scheme := some SipScheme.sip, user := some "alice",
                  hostPort := { host := "example.com", port := none }, params := [] },
        sendBy := { host := "sendby.invalid", port := none } } "1.0"
      { callId := "cid", seq := 41 } Method.options Method.invite Method.cancel
      (by norm_num [u32Mod])).2.1

/-- Counterexample to claim C9 as stated: a slot list whose only entry has
device type webrtc but a name other than UCC-Client makes the program fail
with the no-matching-slot error instead of selecting that slot (the
selection the spec describes is given for comparison as
Main.selectSlotSpec, which does select it). -/
theorem select_slot_by_device_type_fails :
    Main.selectSlot
      [{ id := 1, name := "Phone", userId := 2, deviceType := "webrtc",
         deviceId := 3, sipHost := "h", sipPort := 4, sipUsername := "u",
         sipPassword := "p" }]
      = Except.error "No matching slot found"
    ∧ ({ id := 1, name := "Phone", userId := 2, deviceType := "webrtc",
         deviceId := 3, sipHost := "h", sipPort := 4, sipUsername := "u",
         sipPassword := "p" } : Slot).deviceType = "webrtc"
    ∧ Main.selectSlotSpec
      [{ id := 1, name := "Phone", userId := 2, deviceType := "webrtc",
         deviceId := 3, sipHost := "h", sipPort := 4, sipUsername := "u",
         sipPassword := "p" }]
      = Except.ok
        { id := 1, name := "Phone", userId := 2, deviceType := "webrtc",
          deviceId := 3, sipHost := "h", sipPort := 4, sipUsername := "u",
          sipPassword := "p" } := by
  refine ⟨?_, rfl, ?_⟩ <;> rfl

/-- Claim C9 as amended: the program returns a slot exactly when it is the
first slot of the list whose name field equals UCC-Client (the list splits
as a prefix without any UCC-Client slot, then the returned slot), and
fails with the no-matching-slot error exactly when no slot has that name. -/
theorem select_slot_by_name (slots : List Slot) :
    (∀ s : Slot, Main.selectSlot slots = Except.ok s ↔
      s.name = "UCC-Client"
        ∧ ∃ pre post, slots = pre ++ s :: post
            ∧ ∀ p ∈ pre, p.name ≠ "UCC-Client")
    ∧ (Main.selectSlot slots = Except.error "No matching slot found"
        ↔ ∀ s ∈ slots, s.name ≠ "UCC-Client") := by
  have hsel : ∀ s : Slot, Main.selectSlot slots = Except.ok s ↔
      slots.find? (fun s => s.name == "UCC-Client") = some s := by
    intro s
    unfold Main.selectSlot
    cases hf : slots.find? (fun s => s.name == "UCC-Client") with
    | none =>
      constructor
      · intro h
        exact absurd h (by simp)
      · intro h
        exact absurd h (by simp)
    | some t =>
      constructor
      · intro h
        have hts : t = s := by simpa using h
        rw [hts]
      · intro h
        have hts : t = s := by simpa using h
        rw [hts]
  constructor
  · intro s
    rw [hsel s, List.find?_eq_some]
    constructor
    · rintro ⟨hp, pre, post, hdec, hpre⟩
      refine ⟨by simpa using hp, pre, post, hdec, ?_⟩
      intro p hpm
      have := hpre p hpm
      simpa using this
    · rintro ⟨hname, pre, post, hdec, hpre⟩
      refine ⟨by simpa using hname, pre, post, hdec, ?_⟩
      intro p hpm
      have := hpre p hpm
      simpa using this
  · unfold Main.selectSlot
    cases hf : slots.find? (fun s => s.name == "UCC-Client") with
    | none =>
      constructor
      · intro _ s hs
        have := List.find?_eq_none.mp hf s hs
        simpa using this
      · intro _
        rfl
    | some s' =>
      constructor
      · intro h
        exact absurd h (by simp)
      · intro h
        have hmem := List.mem_of_find?_eq_some hf
        have hname : s'.name = "UCC-Client" := by
          have := List.find?_some hf
          simpa using this
        exact absurd hname (h s' hmem)

/-- Witness for the amended claim C9 at concrete slot lists: of two slots
both named UCC-Client the first one is returned, and a list without any
UCC-Client slot gives the no-matching-slot error. -/
theorem select_slot_by_name_witness :
    Main.selectSlot
      [{ id := 1, name := "UCC-Client", userId := 2, deviceType := "webrtc",
         deviceId := 3, sipHost := "h", sipPort := 4, sipUsername := "u",
         sipPassword := "p" },
       { id := 9, name := "UCC-Client", userId := 2, deviceType := "webrtc",
         deviceId := 3, sipHost := "h", sipPort := 4, sipUsername := "u",
         sipPassword := "p" }]
      = Except.ok
        { id := 1, name := "UCC-Client", userId := 2, deviceType := "webrtc",
          deviceId := 3, sipHost := "h", sipPort := 4, sipUsername := "u",
          sipPassword := "p" }
    ∧ Main.selectSlot
        [{ id := 5, name := "Desk", userId := 6, deviceType := "phone",
           deviceId := 7, sipHost := "h", sipPort := 8, sipUsername := "u",
           sipPassword := "p" }]
      = Except.error "No matching slot found" := by
  constructor
  · refine ((select_slot_by_name
      [{ id := 1, name := "UCC-Client", userId := 2, deviceType := "webrtc",
         deviceId := 3, sipHost := "h", sipPort := 4, sipUsername := "u",
         sipPassword := "p" },
       { id := 9, name := "UCC-Client", userId := 2, deviceType := "webrtc",
         deviceId := 3, sipHost := "h", sipPort := 4, sipUsername := "u",
         sipPassword := "p" }]).1
      { id := 1, name := "UCC-Client", userId := 2, deviceType := "webrtc",
        deviceId := 3, sipHost := "h", sipPort := 4, sipUsername := "u",
        sipPassword := "p" }).mpr ⟨rfl, [], ?_, ?_, ?_⟩
    · exact [{ id := 9, name := "UCC-Client", userId := 2, deviceType := "webrtc",
               deviceId := 3, sipHost := "h", sipPort := 4, sipUsername := "u",
               sipPassword := "p" }]
    · rfl
    · intro p hp
      exact absurd hp (by simp)
  · exact (select_slot_by_name
      [{ id := 5, name := "Desk", userId := 6, deviceType := "phone",
         deviceId := 7, sipHost := "h", sipPort := 8, sipUsername := "u",
         sipPassword := "p" }]).2.mpr (by decide)

end UcwareCli
